import Mathlib

/-!
Shallow embedding of the key-system server (src/server.js): the session store,
the two checkpoint-confirmation paths, credential issuance and redemption, and
the process-local pending-verification map, together with theorems settling the
specification claims about them.
-/

namespace KeySys

/-- Payload shapes the server ever authenticates.  In the source a tag is the
HMAC-SHA256 hex digest of JSON.stringify of a small record; distinct field sets
serialize to distinct strings, so with the digest treated as injective a tag is
modelled symbolically by the payload it signs.  The shapes appearing in the
source are: sessionId+hwid+timestamp (signed at session start and by the
code-confirmation path, verified by the gate request), sessionId+hwid+checkpoint
(signed by the direct confirmation path) and sessionId+hwid (verified by the
direct confirmation path and by key issuance, never signed).  A client-supplied
string that is not a server tag is modelled by the raw constructor. -/
inductive Payload
  | sht (sessionId hwid : String) (timestamp : Nat)
  | shc (sessionId hwid checkpoint : String)
  | sh (sessionId hwid : String)
  | raw (s : String)
deriving DecidableEq, Repr

/-- Entries of a session's checkpoints array.  The direct path (POST
/api/checkpoint) pushes the bare checkpointId string; the code path (POST
/api/verify-checkpoint-code) pushes a record with fields id, completedAt and
verified.  Both element shapes coexist in one array, exactly as in the
untyped store. -/
inductive CpEntry
  | str (id : String)
  | obj (id : String) (completedAt : Nat) (verified : Bool)
deriving DecidableEq, Repr

/-- The checkpoint identifier an entry records. -/
def CpEntry.cid : CpEntry → String
  | .str i => i
  | .obj i _ _ => i

/-- JS Array.prototype.includes with a string argument over a mixed array:
an object element is never strictly equal to a string, so only bare-string
entries can match. -/
def includesStr (l : List CpEntry) (s : String) : Bool :=
  l.any fun e => match e with
    | .str t => t == s
    | .obj _ _ _ => false

/-- The code path's already-completed test: session.checkpoints.map of cp.id
followed by includes.  On a bare-string entry the field access yields
undefined, which never equals the (truthy, hence nonempty) checkpoint string;
on an object entry it yields the stored id. -/
def mapIdIncludes (l : List CpEntry) (s : String) : Bool :=
  l.any fun e => match e with
    | .str _ => false
    | .obj i _ _ => i == s

/-- Session document, as inserted by POST /api/start and mutated by the
confirmation paths and issuance. -/
structure Session where
  sessionId : String
  hwid : String
  timestamp : Nat
  checkpoints : List CpEntry
  completed : Bool
  key : Option String
deriving DecidableEq, Repr

/-- Key document, as inserted by POST /api/getkey. -/
structure KeyDoc where
  key : String
  hwid : String
  sessionId : String
  createdAt : Nat
  expiresAt : Nat
  used : Bool
  usedAt : Option Nat
deriving DecidableEq, Repr

/-- Value stored in the process-local activeSessions map by the gate request. -/
structure PendingEntry where
  code : String
  checkpoint : String
  hwid : String
  createdAt : Nat
deriving DecidableEq, Repr

/-- Whole server state: the two Mongo collections, the insertion-ordered
activeSessions map (JS Map modelled as an association list), and a counter
serving as the entropy source for the generated identifiers. -/
structure ServerState where
  sessions : List Session
  keys : List KeyDoc
  activeSessions : List (String × PendingEntry)
  counter : Nat
deriving DecidableEq, Repr

/-- State of the process right after startup: empty collections, empty map. -/
def initialState : ServerState := ⟨[], [], [], 0⟩

/-- Number of hours a key stays valid (KEY_EXPIRY_HOURS in the source). -/
def KEY_EXPIRY_HOURS : Nat := 24

/-- Model of crypto.randomBytes hex session ids: only freshness matters, so
draw number n is a string of length n+1 in a dedicated alphabet. -/
def genSessionId (n : Nat) : String := String.mk ('S' :: List.replicate n 's')

/-- Model of generateKey (crypto.randomBytes(16).toString hex, uppercased):
draw number n is a string of length n+1; distinct draws are distinct. -/
def generateKey (n : Nat) : String := String.mk ('K' :: List.replicate n 'k')

/-- Model of generateVerificationCode (random base-36, uppercased): draw
number n is a string of length n+1. -/
def generateVerificationCode (n : Nat) : String :=
  String.mk ('C' :: List.replicate n 'C')

/-- Model of generateHWID: a one-way hash of ip and user agent, injective on
the pair, modelled as a tagged concatenation. -/
def generateHWID (ip ua : String) : String := ip ++ "|" ++ ua

/-- JS String.prototype.toUpperCase over the characters of the string. -/
def strUpper (s : String) : String := String.mk (s.data.map Char.toUpper)

/-- JS Map.get. -/
def mapGet (l : List (String × PendingEntry)) (k : String) : Option PendingEntry :=
  (l.find? (fun p => p.1 == k)).map Prod.snd

/-- JS Map.set: replaces the value in place when the key is present, appends
otherwise (insertion order is preserved, as for a JS Map). -/
def mapSet (l : List (String × PendingEntry)) (k : String) (v : PendingEntry) :
    List (String × PendingEntry) :=
  if l.any (fun p => p.1 == k) then
    l.map (fun p => if p.1 == k then (k, v) else p)
  else l ++ [(k, v)]

/-- JS Map.delete of one key. -/
def mapDelete (l : List (String × PendingEntry)) (k : String) :
    List (String × PendingEntry) :=
  l.filter (fun p => !(p.1 == k))

/-- The inline cleanup sweep in POST /api/get-workink-link: every entry whose
age strictly exceeds 600000 ms is deleted, every other entry is kept. -/
def sweepOld (l : List (String × PendingEntry)) (now : Nat) :
    List (String × PendingEntry) :=
  l.filter (fun p => !decide (600000 < now - p.2.createdAt))

/-- updateOne on the sessions collection: rewrite the first document whose
sessionId matches. -/
def updateSession (l : List Session) (sid : String) (f : Session → Session) :
    List Session :=
  match l with
  | [] => []
  | s :: rest =>
    if s.sessionId == sid then f s :: rest else s :: updateSession rest sid f

/-- updateOne on the keys collection: rewrite the first document whose key
matches. -/
def updateKey (l : List KeyDoc) (k : String) (f : KeyDoc → KeyDoc) :
    List KeyDoc :=
  match l with
  | [] => []
  | d :: rest =>
    if d.key == k then f d :: rest else d :: updateKey rest k f

/-- Response of POST /api/start (the storage-failure path is out of scope). -/
inductive StartResp
  | ok (sessionId : String) (signature : Payload) (timestamp : Nat)
deriving DecidableEq, Repr

/-- POST /api/start: derive the hwid, insert a fresh session, return the id
and a tag over sessionId+hwid+timestamp. -/
def startHandler (st : ServerState) (now : Nat) (ip ua : String) :
    ServerState × StartResp :=
  let hwid := generateHWID ip ua
  let sid := genSessionId st.counter
  let s : Session := ⟨sid, hwid, now, [], false, none⟩
  ({ st with sessions := st.sessions ++ [s], counter := st.counter + 1 },
   .ok sid (Payload.sht sid hwid now) now)

/-- Request body of POST /api/checkpoint.  A missing or empty (falsy) string
field is modelled as none for the signature and as none or the empty string
for the others. -/
structure CheckpointReq where
  sessionId : Option String
  signature : Option Payload
  checkpointId : Option String
  proof : Option String
deriving DecidableEq, Repr

/-- Responses of POST /api/checkpoint. -/
inductive CheckpointResp
  | missingParams
  | invalidSession
  | invalidSignature
  | alreadyCompleted
  | completed (signature : Payload) (checkpointsCompleted : Nat)
deriving DecidableEq, Repr

/-- POST /api/checkpoint, the direct confirmation path: guard the parameters,
look the session up, verify the tag against sessionId+hwid, report an already
present bare-string entry as success, otherwise push the bare checkpointId
string and sign sessionId+hwid+checkpoint.  The proof field is parsed and
never read. -/
def checkpointHandler (st : ServerState) (r : CheckpointReq) :
    ServerState × CheckpointResp :=
  match r.sessionId, r.signature, r.checkpointId with
  | some sid, some sig, some cid =>
    if sid == "" || cid == "" then (st, .missingParams)
    else
      match st.sessions.find? (fun s => s.sessionId == sid) with
      | none => (st, .invalidSession)
      | some s =>
        if sig == Payload.sh sid s.hwid then
          if includesStr s.checkpoints cid then (st, .alreadyCompleted)
          else
            let sess := updateSession st.sessions sid
              (fun t => { t with checkpoints := t.checkpoints ++ [CpEntry.str cid] })
            ({ st with sessions := sess },
             .completed (Payload.shc sid s.hwid cid) (s.checkpoints.length + 1))
        else (st, .invalidSignature)
  | _, _, _ => (st, .missingParams)

/-- Request body of POST /api/getkey. -/
structure GetkeyReq where
  sessionId : Option String
  signature : Option Payload
deriving DecidableEq, Repr

/-- Responses of POST /api/getkey. -/
inductive GetkeyResp
  | missingParams
  | invalidSession
  | invalidSignature
  | notAllCheckpoints (completed : List CpEntry) (required : List String)
  | issued (key : String) (expiresAt : Nat)
deriving DecidableEq, Repr

/-- The fixed required checkpoint set of POST /api/getkey. -/
def requiredCheckpoints : List String := ["task1", "task2"]

/-- POST /api/getkey: guard, look up, verify the tag against sessionId+hwid,
require every required checkpoint to be present via includes (which only
matches bare-string entries), then insert a key expiring 24 hours from now and
mark the session completed.  The completed flag is never consulted. -/
def getkeyHandler (st : ServerState) (now : Nat) (r : GetkeyReq) :
    ServerState × GetkeyResp :=
  match r.sessionId, r.signature with
  | some sid, some sig =>
    if sid == "" then (st, .missingParams)
    else
      match st.sessions.find? (fun s => s.sessionId == sid) with
      | none => (st, .invalidSession)
      | some s =>
        if sig == Payload.sh sid s.hwid then
          if requiredCheckpoints.all (fun cp => includesStr s.checkpoints cp) then
            let key := generateKey st.counter
            let expiresAt := now + KEY_EXPIRY_HOURS * 60 * 60 * 1000
            let keys := st.keys ++ [⟨key, s.hwid, sid, now, expiresAt, false, none⟩]
            let sess := updateSession st.sessions sid
              (fun t => { t with completed := true, key := some key })
            ({ st with keys := keys, sessions := sess, counter := st.counter + 1 },
             .issued key expiresAt)
          else (st, .notAllCheckpoints s.checkpoints requiredCheckpoints)
        else (st, .invalidSignature)
  | _, _ => (st, .missingParams)

/-- Request body of POST /api/verify. -/
structure VerifyReq where
  key : Option String
  hwid : Option String
deriving DecidableEq, Repr

/-- Responses of POST /api/verify. -/
inductive VerifyResp
  | missingParams
  | invalidKey
  | hwidMismatch
  | expired
  | alreadyUsed
  | ok (expiresAt : Nat)
deriving DecidableEq, Repr

/-- An in-flight POST /api/verify request after its awaited findOne has
resolved: the request fields plus the snapshot of the key document it read. -/
structure VerifyInflight where
  key : String
  hwid : String
  snapshot : Option KeyDoc
deriving DecidableEq, Repr

/-- First half of POST /api/verify: the awaited findOne on the keys
collection.  Reads only; another request may run before the commit. -/
def verifyRead (st : ServerState) (k h : String) : VerifyInflight :=
  ⟨k, h, st.keys.find? (fun d => d.key == k)⟩

/-- Second half of POST /api/verify: the synchronous checks on the snapshot
(hwid, then expiry, then used, in that order) followed by the awaited
updateOne setting used and usedAt.  All checks run against the snapshot, not
the current store. -/
def verifyCommit (st : ServerState) (now : Nat) (r : VerifyInflight) :
    ServerState × VerifyResp :=
  match r.snapshot with
  | none => (st, .invalidKey)
  | some d =>
    if d.hwid == r.hwid then
      if d.expiresAt < now then (st, .expired)
      else if d.used then (st, .alreadyUsed)
      else
        let keys := updateKey st.keys r.key
          (fun e => { e with used := true, usedAt := some now })
        ({ st with keys := keys }, .ok d.expiresAt)
    else (st, .hwidMismatch)

/-- POST /api/verify run without interleaving: guard the parameters, then the
read followed immediately by the commit. -/
def verifyHandler (st : ServerState) (now : Nat) (r : VerifyReq) :
    ServerState × VerifyResp :=
  match r.key, r.hwid with
  | some k, some h =>
    if k == "" || h == "" then (st, .missingParams)
    else verifyCommit st now (verifyRead st k h)
  | _, _ => (st, .missingParams)

/-- Request body of POST /api/get-workink-link. -/
structure GwlReq where
  sessionId : Option String
  signature : Option Payload
  checkpointId : Option String
deriving DecidableEq, Repr

/-- Responses of POST /api/get-workink-link. -/
inductive GwlResp
  | missingParams
  | invalidSession
  | invalidSignature
  | invalidCheckpoint
  | gate (link : String) (verificationCode : String)
deriving DecidableEq, Repr

/-- External link for task1. -/
def workinkUrl1 : String := "https://workink.net/24Hy/aivwflop"

/-- External link for task2. -/
def workinkUrl2 : String := "https://workink.net/24Hy/l3vn0tbt"

/-- POST /api/get-workink-link: guard, look up, verify the tag against
sessionId+hwid+timestamp, then generate a code and store the pending entry,
run the cleanup sweep, and only afterwards branch on the checkpoint id —
an unknown id is rejected after the map has already been mutated. -/
def gwlHandler (st : ServerState) (now : Nat) (r : GwlReq) :
    ServerState × GwlResp :=
  match r.sessionId, r.signature, r.checkpointId with
  | some sid, some sig, some cid =>
    if sid == "" || cid == "" then (st, .missingParams)
    else
      match st.sessions.find? (fun s => s.sessionId == sid) with
      | none => (st, .invalidSession)
      | some s =>
        if sig == Payload.sht sid s.hwid s.timestamp then
          let vcode := generateVerificationCode st.counter
          let active :=
            sweepOld (mapSet st.activeSessions sid ⟨vcode, cid, s.hwid, now⟩) now
          let st1 := { st with activeSessions := active, counter := st.counter + 1 }
          if cid == "task1" then (st1, .gate workinkUrl1 vcode)
          else if cid == "task2" then (st1, .gate workinkUrl2 vcode)
          else (st1, .invalidCheckpoint)
        else (st, .invalidSignature)
  | _, _, _ => (st, .missingParams)

/-- Request body of POST /api/verify-checkpoint-code. -/
structure VccReq where
  sessionId : Option String
  code : Option String
deriving DecidableEq, Repr

/-- Responses of POST /api/verify-checkpoint-code. -/
inductive VccResp
  | missingParams
  | invalidSession
  | noPending
  | invalidCode
  | alreadyCompleted
  | confirmed (checkpoint : String) (signature : Payload)
deriving DecidableEq, Repr

/-- POST /api/verify-checkpoint-code: guard, look the session up, fetch the
pending entry, compare the codes case-insensitively; on a match, an already
recorded checkpoint (per the object-entry id map) reports success with no
mutation and the pending entry is NOT deleted; otherwise push an object entry,
delete the pending entry and sign sessionId+hwid+timestamp. -/
def vccHandler (st : ServerState) (now : Nat) (r : VccReq) :
    ServerState × VccResp :=
  match r.sessionId, r.code with
  | some sid, some code =>
    if sid == "" || code == "" then (st, .missingParams)
    else
      match st.sessions.find? (fun s => s.sessionId == sid) with
      | none => (st, .invalidSession)
      | some s =>
        match mapGet st.activeSessions sid with
        | none => (st, .noPending)
        | some vd =>
          if strUpper vd.code == strUpper code then
            if mapIdIncludes s.checkpoints vd.checkpoint then
              (st, .alreadyCompleted)
            else
              let entry := CpEntry.obj vd.checkpoint now true
              let sess := updateSession st.sessions sid
                (fun t => { t with checkpoints := t.checkpoints ++ [entry] })
              let active := mapDelete st.activeSessions sid
              ({ st with sessions := sess, activeSessions := active },
               .confirmed vd.checkpoint (Payload.sht sid s.hwid s.timestamp))
          else (st, .invalidCode)
  | _, _ => (st, .missingParams)

/-! Byte-level model of the signer, for the claims about verifySignature
itself.  HMAC-SHA256 of the serialized payload is rendered as a 64-character
hex string; the digest computation is irrelevant cryptography, so it is
modelled by a concrete mixing function whose output always has the digest's
64-byte length, which is the only property of the digest the code's control
flow depends on. -/

/-- Model of signData: the byte list of the 64-character hex digest of the
serialized payload bytes. -/
def signDataBytes (data : List Nat) : List Nat :=
  (List.range 64).map (fun i => (data.foldl (fun a b => a * 31 + b) i) % 256)

/-- Node's crypto.timingSafeEqual: throws when the two buffers differ in
length (modelled as Except.error), otherwise returns the boolean equality. -/
def timingSafeEqual (a b : List Nat) : Except String Bool :=
  if a.length = b.length then Except.ok (a == b)
  else Except.error "Input buffers must have the same byte length"

/-- verifySignature from the source: recompute the expected digest and
compare with timingSafeEqual, which throws out of the function when the
client-supplied tag's byte length differs from the digest length. -/
def verifySignature (data signature : List Nat) : Except String Bool :=
  timingSafeEqual signature (signDataBytes data)

/-! Concrete execution traces used by several claims: one client (hwid
derived from "ip" and "ua") starts a session at time 100 and works through
the gated checkpoints.  With the freshness counter starting at 0 the session
id is "S", the first verification code is "CC" and the second "CCC". -/

/-- State after POST /api/start from the empty store. -/
def stStart : ServerState := (startHandler initialState 100 "ip" "ua").1

/-- The tag POST /api/start returns for that session: it covers
sessionId+hwid+timestamp.  The code-confirmation path returns this same tag
value; no other tag value is ever returned to this client before issuance. -/
def tagStart : Payload := Payload.sht "S" "ip|ua" 100

/-- State after requesting the gate for task1 (stores pending code "CC"). -/
def stGate1 : ServerState :=
  (gwlHandler stStart 200 ⟨some "S", some tagStart, some "task1"⟩).1

/-- State after confirming task1 with the returned code. -/
def stConf1 : ServerState := (vccHandler stGate1 300 ⟨some "S", some "CC"⟩).1

/-- State after requesting the gate for task2 (stores pending code "CCC"). -/
def stGate2 : ServerState :=
  (gwlHandler stConf1 400 ⟨some "S", some tagStart, some "task2"⟩).1

/-- State after confirming task2 with the returned code: both required
checkpoints are recorded (as object entries). -/
def stConf2 : ServerState := (vccHandler stGate2 500 ⟨some "S", some "CCC"⟩).1

/-- Alternative branch for the duplicate-entry claims: from the started
session, confirm task1 through the direct path (with the semantically valid
sessionId+hwid tag), leaving a bare-string entry. -/
def stDirect1 : ServerState :=
  (checkpointHandler stStart
    ⟨some "S", some (Payload.sh "S" "ip|ua"), some "task1", none⟩).1

/-- Then request the gate for task1 on that branch (pending code "CC"). -/
def stDirGate : ServerState :=
  (gwlHandler stDirect1 200 ⟨some "S", some tagStart, some "task1"⟩).1

/-- Then confirm task1 through the code path on that branch. -/
def stDirConf : ServerState := (vccHandler stDirGate 300 ⟨some "S", some "CC"⟩).1

/-- Re-gating task1 after it was already confirmed through the code path
(pending code "CCC" at time 600): the setting for the pending-entry
retention counterexample. -/
def stRegate : ServerState :=
  (gwlHandler stConf1 600 ⟨some "S", some tagStart, some "task1"⟩).1

/-- Store holding one freshly issued, unexpired key bound to hwid "H",
for the redemption claims. -/
def stOneKey : ServerState := ⟨[], [⟨"K", "H", "S", 0, 1000, false, none⟩], [], 0⟩

/-- Store holding one already-used key bound to hwid "H". -/
def stUsedKey : ServerState := ⟨[], [⟨"K", "H", "S", 0, 1000, true, some 2⟩], [], 0⟩

/-- Store after a first issuance: the session holds both required checkpoints
as bare-string entries, is marked completed with its key, and the key
document (key draw 0, so the counter is 1) is on file. -/
def stCompleted : ServerState :=
  ⟨[⟨"S", "H", 100, [CpEntry.str "task1", CpEntry.str "task2"], true, some "K"⟩],
   [⟨"K", "H", "S", 50, 86400050, false, none⟩], [], 1⟩

/-- First concurrent redemption: the read step taken from stOneKey. -/
def redeemReadA : VerifyInflight := verifyRead stOneKey "K" "H"

/-- Second concurrent redemption: its read step also runs before either
commit, so it snapshots the same unused document. -/
def redeemReadB : VerifyInflight := verifyRead stOneKey "K" "H"

/-- Commit of the first redemption. -/
def redeemCommitA : ServerState × VerifyResp := verifyCommit stOneKey 500 redeemReadA

/-- Commit of the second redemption, after the first has committed. -/
def redeemCommitB : ServerState × VerifyResp :=
  verifyCommit redeemCommitA.1 500 redeemReadB

/-- Key uniqueness of the pending-verification map: no two entries share a
sessionId. -/
def KeysNodup (l : List (String × PendingEntry)) : Prop :=
  l.Pairwise (fun a b => a.1 ≠ b.1)

/-- Server states reachable from startup by any sequence of requests with any
inputs at any times, including the commit of a redemption whose read phase ran
against an earlier state. -/
inductive Reach : ServerState → Prop
  | init : Reach initialState
  | start (st : ServerState) (now : Nat) (ip ua : String) :
      Reach st → Reach (startHandler st now ip ua).1
  | checkpoint (st : ServerState) (r : CheckpointReq) :
      Reach st → Reach (checkpointHandler st r).1
  | getkey (st : ServerState) (now : Nat) (r : GetkeyReq) :
      Reach st → Reach (getkeyHandler st now r).1
  | redeem (st : ServerState) (now : Nat) (r : VerifyReq) :
      Reach st → Reach (verifyHandler st now r).1
  | redeemStale (st : ServerState) (now : Nat) (r : VerifyInflight) :
      Reach st → Reach (verifyCommit st now r).1
  | gate (st : ServerState) (now : Nat) (r : GwlReq) :
      Reach st → Reach (gwlHandler st now r).1
  | confirmCode (st : ServerState) (now : Nat) (r : VccReq) :
      Reach st → Reach (vccHandler st now r).1

/-! Helper lemmas about the map primitives and the handlers, shared by the
claim theorems. -/

/-- Replacing the value stored under a key never changes an entry's key. -/
theorem fst_setEntry (k : String) (v : PendingEntry) (p : String × PendingEntry) :
    (if p.1 == k then (k, v) else p).1 = p.1 := by
  split
  · next h => exact (eq_of_beq h).symm
  · rfl

/-- Map.set preserves key uniqueness. -/
theorem KeysNodup_mapSet (l : List (String × PendingEntry)) (k : String)
    (v : PendingEntry) (h : KeysNodup l) : KeysNodup (mapSet l k v) := by
  unfold mapSet
  split
  · refine List.pairwise_map.mpr (h.imp ?_)
    intro a b hab
    rw [fst_setEntry, fst_setEntry]
    exact hab
  · next hAny =>
    refine List.pairwise_append.mpr ⟨h, by simp, ?_⟩
    intro a ha b hb
    have hb' : b = (k, v) := by simpa using hb
    subst hb'
    intro hak
    exact absurd
      (show (l.any fun p => p.1 == k) = true from
        List.any_eq_true.mpr ⟨a, ha, beq_iff_eq.mpr hak⟩) hAny

/-- Any filtering of the map (the delete and the sweep) preserves key
uniqueness. -/
theorem KeysNodup_filter (l : List (String × PendingEntry))
    (p : String × PendingEntry → Bool) (h : KeysNodup l) :
    KeysNodup (l.filter p) :=
  h.sublist (List.filter_sublist l)

/-- find? returns the designated element when it is present, satisfies the
predicate, and is the only element satisfying it. -/
theorem find_eq_of_mem_of_uniform {α : Type} (q : α → Bool) (x : α) :
    ∀ L : List α, x ∈ L → q x = true → (∀ y ∈ L, q y = true → y = x) →
      L.find? q = some x := by
  intro L
  induction L with
  | nil => intro h; cases h
  | cons a t ih =>
    intro hx hq huni
    by_cases ha : q a = true
    · have hax : a = x := huni a (List.mem_cons_self a t) ha
      rw [List.find?_cons_of_pos _ ha, hax]
    · have hxt : x ∈ t := by
        rcases List.mem_cons.mp hx with h | h
        · exact absurd (h ▸ hq) ha
        · exact h
      rw [List.find?_cons_of_neg _ (by simpa using ha)]
      exact ih hxt hq (fun y hy hqy => huni y (List.mem_cons_of_mem a hy) hqy)

/-- The entry written by Map.set is in the resulting map. -/
theorem mem_mapSet_self (l : List (String × PendingEntry)) (k : String)
    (v : PendingEntry) : (k, v) ∈ mapSet l k v := by
  unfold mapSet
  split
  · next h =>
    obtain ⟨p, hp, hpk⟩ := List.any_eq_true.mp h
    exact List.mem_map.mpr ⟨p, hp, by simp [hpk]⟩
  · exact List.mem_append.mpr (Or.inr (List.mem_singleton.mpr rfl))

/-- After Map.set, the written entry is the only one under its key. -/
theorem mapSet_uniform (l : List (String × PendingEntry)) (k : String)
    (v : PendingEntry) : ∀ p ∈ mapSet l k v, p.1 = k → p = (k, v) := by
  unfold mapSet
  split
  · next h =>
    intro p hp hpk
    obtain ⟨q, hq, hfq⟩ := List.mem_map.mp hp
    by_cases hqk : (q.1 == k) = true
    · rw [if_pos hqk] at hfq
      exact hfq.symm
    · rw [if_neg hqk] at hfq
      subst hfq
      exact absurd (beq_iff_eq.mpr hpk) hqk
  · next h =>
    intro p hp hpk
    rcases List.mem_append.mp hp with hl | hr
    · exact absurd
        (show (l.any fun p => p.1 == k) = true from
          List.any_eq_true.mpr ⟨p, hl, beq_iff_eq.mpr hpk⟩) h
    · simpa using hr

/-- A just-written entry survives the sweep (its age is zero-like, below the
TTL) and is what Map.get then returns, whatever the map held before. -/
theorem mapGet_sweepOld_mapSet (l : List (String × PendingEntry)) (k : String)
    (v : PendingEntry) (now : Nat) (hv : ¬ 600000 < now - v.createdAt) :
    mapGet (sweepOld (mapSet l k v) now) k = some v := by
  have hmem : (k, v) ∈ mapSet l k v := mem_mapSet_self l k v
  have hmemf : (k, v) ∈ sweepOld (mapSet l k v) now :=
    List.mem_filter.mpr ⟨hmem, by simpa using hv⟩
  unfold mapGet
  rw [find_eq_of_mem_of_uniform (fun p => p.1 == k) (k, v) _ hmemf (by simp)
    (fun y hy hqy =>
      mapSet_uniform l k v y (List.mem_filter.mp hy).1 (by simpa using hqy))]
  rfl

/-- Map.delete removes every entry under the key. -/
theorem mapGet_mapDelete_self (l : List (String × PendingEntry)) (k : String) :
    mapGet (mapDelete l k) k = none := by
  unfold mapGet mapDelete
  rw [List.find?_eq_none.mpr]
  · rfl
  · intro p hp
    have := (List.mem_filter.mp hp).2
    simpa using this

/-- The direct confirmation path never touches the pending map. -/
theorem checkpoint_activeSessions_eq (st : ServerState) (r : CheckpointReq) :
    (checkpointHandler st r).1.activeSessions = st.activeSessions := by
  unfold checkpointHandler
  repeat first | rfl | split

/-- Issuance never touches the pending map. -/
theorem getkey_activeSessions_eq (st : ServerState) (now : Nat) (r : GetkeyReq) :
    (getkeyHandler st now r).1.activeSessions = st.activeSessions := by
  unfold getkeyHandler
  repeat first | rfl | split

/-- A redemption commit never touches the pending map. -/
theorem verifyCommit_activeSessions_eq (st : ServerState) (now : Nat)
    (r : VerifyInflight) :
    (verifyCommit st now r).1.activeSessions = st.activeSessions := by
  unfold verifyCommit
  repeat first | rfl | split

/-- A full redemption never touches the pending map. -/
theorem verify_activeSessions_eq (st : ServerState) (now : Nat) (r : VerifyReq) :
    (verifyHandler st now r).1.activeSessions = st.activeSessions := by
  unfold verifyHandler
  repeat first | rfl | apply verifyCommit_activeSessions_eq | split

/-- The gate request either leaves the pending map alone or writes one entry
and sweeps. -/
theorem gwl_activeSessions_cases (st : ServerState) (now : Nat) (r : GwlReq) :
    (gwlHandler st now r).1.activeSessions = st.activeSessions ∨
    ∃ k v, (gwlHandler st now r).1.activeSessions =
      sweepOld (mapSet st.activeSessions k v) now := by
  unfold gwlHandler
  repeat first | exact Or.inl rfl | exact Or.inr ⟨_, _, rfl⟩ | split

/-- The code confirmation either leaves the pending map alone or deletes one
key. -/
theorem vcc_activeSessions_cases (st : ServerState) (now : Nat) (r : VccReq) :
    (vccHandler st now r).1.activeSessions = st.activeSessions ∨
    ∃ k, (vccHandler st now r).1.activeSessions = mapDelete st.activeSessions k := by
  unfold vccHandler
  repeat first | exact Or.inl rfl | exact Or.inr ⟨_, rfl⟩ | split

/-- Every reachable state has at most one pending verification per session. -/
theorem reach_KeysNodup (st : ServerState) (h : Reach st) :
    KeysNodup st.activeSessions := by
  induction h with
  | init => exact List.Pairwise.nil
  | start st now ip ua _ ih => exact ih
  | checkpoint st r _ ih => rw [checkpoint_activeSessions_eq]; exact ih
  | getkey st now r _ ih => rw [getkey_activeSessions_eq]; exact ih
  | redeem st now r _ ih => rw [verify_activeSessions_eq]; exact ih
  | redeemStale st now r _ ih => rw [verifyCommit_activeSessions_eq]; exact ih
  | gate st now r _ ih =>
    rcases gwl_activeSessions_cases st now r with hc | ⟨k, v, hc⟩
    · rw [hc]; exact ih
    · rw [hc]; exact KeysNodup_filter _ _ (KeysNodup_mapSet _ _ _ ih)
  | confirmCode st now r _ ih =>
    rcases vcc_activeSessions_cases st now r with hc | ⟨k, hc⟩
    · rw [hc]; exact ih
    · rw [hc]; exact KeysNodup_filter _ _ ih

/-- Keys generated by distinct draws have distinct lengths. -/
theorem generateKey_length (n : Nat) : (generateKey n).length = n + 1 := by
  simp [generateKey, String.length]

/-- The key generator never repeats a value across draws. -/
theorem generateKey_injective (m n : Nat) (h : generateKey m = generateKey n) :
    m = n := by
  have := congrArg String.length h
  simpa [generateKey_length] using this

/-! Claim theorems. -/

/-- C1: the claimed full flow does not exist in the code.  Starting from the
empty store, the session's start tag covers sessionId+hwid+timestamp and the
code-confirmation path returns that same tag value, so the only tag the server
ever returns to this client is tagStart; the gated confirmations of task1 and
task2 both succeed with it, yet IssueCredential (POST /api/getkey) verifies
the tag against sessionId+hwid — a payload the server never signs — and
rejects with the invalid-signature error, leaving the store unchanged.  A
fresh session's IssueCredential call with its start tag is likewise rejected
with the invalid-signature error, not with the missing-required-checkpoints
error the claim expects, and the direct confirmation path rejects the start
tag as well. -/
theorem C1_full_flow_broken :
    (vccHandler stGate1 300 ⟨some "S", some "CC"⟩).2 = VccResp.confirmed "task1" tagStart
    ∧ (vccHandler stGate2 500 ⟨some "S", some "CCC"⟩).2 = VccResp.confirmed "task2" tagStart
    ∧ getkeyHandler stConf2 600 ⟨some "S", some tagStart⟩ = (stConf2, GetkeyResp.invalidSignature)
    ∧ checkpointHandler stStart ⟨some "S", some tagStart, some "task1", none⟩
        = (stStart, CheckpointResp.invalidSignature)
    ∧ getkeyHandler stStart 150 ⟨some "S", some tagStart⟩ = (stStart, GetkeyResp.invalidSignature) := by
  decide

/-- C2: the no-duplicate invariant fails on a reachable interleaving of the
two confirmation paths.  Confirming task1 through the direct path (with the
tag the direct path accepts) stores the bare string entry; gating and
confirming task1 again through the code path misses that entry — its
already-completed check reads the id field, undefined on a string — and
appends an object entry for the same identifier, so the session ends with
two entries recording checkpoint task1. -/
theorem C2_duplicate_checkpoint_entries :
    (checkpointHandler stStart ⟨some "S", some (Payload.sh "S" "ip|ua"), some "task1", none⟩).2
        = CheckpointResp.completed (Payload.shc "S" "ip|ua" "task1") 1
    ∧ (vccHandler stDirGate 300 ⟨some "S", some "CC"⟩).2 = VccResp.confirmed "task1" tagStart
    ∧ stDirConf.sessions.map (fun s => s.checkpoints.map CpEntry.cid) = [["task1", "task1"]]
    ∧ ¬ ([("task1" : String), "task1"].Nodup) := by
  decide

/-- C3: single-use fails under the concurrency the claim covers.  Redemption
is a read (findOne) followed by a commit (checks on the snapshot, then
updateOne); the two steps are separate awaits, so two redemptions of the same
fresh key may both read before either commits, and then both return success —
the second does not fail with the already-used error.  Sequentially the code
does behave: a third call after the commits fails with the already-used
error. -/
theorem C3_concurrent_double_redeem :
    redeemCommitA.2 = VerifyResp.ok 1000
    ∧ redeemCommitB.2 = VerifyResp.ok 1000
    ∧ (verifyHandler redeemCommitA.1 500 ⟨some "K", some "H"⟩).2 = VerifyResp.alreadyUsed
    ∧ stOneKey.keys = [⟨"K", "H", "S", 0, 1000, false, none⟩] := by
  decide

/-- C8: cross-path re-confirmation is not idempotent.  After task1 was
confirmed through the code path (stored as an object entry), re-confirming it
through the direct path misses the entry — includes with a string argument
never matches an object — and appends a second, bare-string entry while
reporting the freshly-completed success, not the already-completed one, so
the session is mutated. -/
theorem C8_cross_path_reconfirm_not_idempotent :
    stConf1.sessions.map (fun s => s.checkpoints.map CpEntry.cid) = [["task1"]]
    ∧ (checkpointHandler stConf1 ⟨some "S", some (Payload.sh "S" "ip|ua"), some "task1", none⟩).2
        = CheckpointResp.completed (Payload.shc "S" "ip|ua" "task1") 2
    ∧ (checkpointHandler stConf1 ⟨some "S", some (Payload.sh "S" "ip|ua"), some "task1", none⟩).1.sessions.map
        (fun s => s.checkpoints.map CpEntry.cid) = [["task1", "task1"]] := by
  decide

/-- C4 counterexample: verifySignature is not total in the tag.  For a
client-supplied tag shorter than the 64-byte digest, timingSafeEqual throws
(modelled as Except.error) instead of returning a boolean. -/
theorem C4_counterexample_short_tag :
    verifySignature [104, 105] [] =
      Except.error "Input buffers must have the same byte length" := by
  rfl

/-- C5 counterexample: requesting the gate for the unknown checkpoint task3
with a valid session and tag is rejected with the invalid-checkpoint error,
yet the pending-verification table is NOT left unchanged: the handler stored
the entry (code, task3, hwid, time) before checking the checkpoint set. -/
theorem C5_counterexample_stores_on_reject :
    (gwlHandler stStart 200 ⟨some "S", some tagStart, some "task3"⟩).2 = GwlResp.invalidCheckpoint
    ∧ (gwlHandler stStart 200 ⟨some "S", some tagStart, some "task3"⟩).1.activeSessions
        = [("S", ⟨"CC", "task3", "ip|ua", 200⟩)]
    ∧ stStart.activeSessions = [] := by
  decide

/-- C9 counterexample: a ConfirmCheckpointCode call whose code matches does
NOT always delete the pending entry.  Re-gating the already-confirmed task1
stores a pending entry with code CCC; confirming with that exact code returns
the already-completed success and leaves the pending entry in the table. -/
theorem C9_counterexample_match_keeps_pending :
    (vccHandler stRegate 700 ⟨some "S", some "CCC"⟩).2 = VccResp.alreadyCompleted
    ∧ mapGet (vccHandler stRegate 700 ⟨some "S", some "CCC"⟩).1.activeSessions "S"
        = some ⟨"CCC", "task1", "ip|ua", 600⟩ := by
  decide

/-- C4 amended: verifySignature returns a boolean verdict (never an
exception) exactly when the client-supplied tag has the digest's 64-byte
length; for any other length it raises, and the route handlers convert that
exception into a 500 response rather than an authorization failure. -/
theorem C4_boolean_on_digest_length (data tag : List Nat)
    (h : tag.length = 64) :
    verifySignature data tag = Except.ok (tag == signDataBytes data) := by
  have hlen : tag.length = (signDataBytes data).length := by
    simp [signDataBytes, h]
  unfold verifySignature timingSafeEqual
  rw [if_pos hlen]

/-- C4 witness: a 64-byte tag gets a boolean verdict. -/
theorem C4_boolean_on_digest_length_witness :
    (List.replicate 64 0).length = 64
    ∧ verifySignature [] (List.replicate 64 0)
        = Except.ok (List.replicate 64 0 == signDataBytes []) :=
  ⟨by decide, C4_boolean_on_digest_length [] (List.replicate 64 0) (by decide)⟩

/-- C5 amended: a gate request with a valid session and tag but a
checkpointId outside the known set is rejected with the invalid-checkpoint
error, yet the pending-verification entry has already been stored: after the
rejection the table maps the session to a fresh entry carrying the unknown
checkpointId, the generated code, the session's hwid and the request time. -/
theorem C5_gate_unknown_checkpoint_stores_entry (st : ServerState) (now : Nat)
    (sid cid : String) (s : Session)
    (hsid : sid ≠ "") (hcid : cid ≠ "")
    (hfind : st.sessions.find? (fun t => t.sessionId == sid) = some s)
    (h1 : cid ≠ "task1") (h2 : cid ≠ "task2") :
    (gwlHandler st now ⟨some sid, some (Payload.sht sid s.hwid s.timestamp), some cid⟩).2
        = GwlResp.invalidCheckpoint
    ∧ mapGet (gwlHandler st now ⟨some sid, some (Payload.sht sid s.hwid s.timestamp), some cid⟩).1.activeSessions sid
        = some ⟨generateVerificationCode st.counter, cid, s.hwid, now⟩ := by
  have hs0 : (sid == "") = false := beq_eq_false_iff_ne.mpr hsid
  have hc0 : (cid == "") = false := beq_eq_false_iff_ne.mpr hcid
  have hc1 : (cid == "task1") = false := beq_eq_false_iff_ne.mpr h1
  have hc2 : (cid == "task2") = false := beq_eq_false_iff_ne.mpr h2
  constructor
  · simp [gwlHandler, hs0, hc0, hfind, hc1, hc2]
  · simp [gwlHandler, hs0, hc0, hfind, hc1, hc2]
    exact mapGet_sweepOld_mapSet _ _ _ _ (by simp)

/-- C5 witness: requesting the gate for the unknown task3 on the freshly
started session is rejected, with the entry stored nonetheless. -/
theorem C5_gate_unknown_checkpoint_witness :
    (gwlHandler stStart 200 ⟨some "S", some (Payload.sht "S" "ip|ua" 100), some "task3"⟩).2
        = GwlResp.invalidCheckpoint
    ∧ mapGet (gwlHandler stStart 200 ⟨some "S", some (Payload.sht "S" "ip|ua" 100), some "task3"⟩).1.activeSessions "S"
        = some ⟨generateVerificationCode stStart.counter, "task3", "ip|ua", 200⟩ :=
  C5_gate_unknown_checkpoint_stores_entry stStart 200 "S" "task3"
    ⟨"S", "ip|ua", 100, [], false, none⟩ (by decide) (by decide) (by decide)
    (by decide) (by decide)

/-- C6: RedeemCredential rejects with a distinct reason for unknown key,
identity mismatch, past expiry and already used, checked in that order
(mismatch wins over expiry and used; expiry wins over used), and every
rejection leaves the store unchanged: an expired credential is rejected as
expired even when unused and identity-matched, and a wrong identity is
rejected as a mismatch whatever the expiry and used-state. -/
theorem C6_redemption_taxonomy :
    (∀ (st : ServerState) (now : Nat) (k w : String), k ≠ "" → w ≠ "" →
        st.keys.find? (fun d => d.key == k) = none →
        verifyHandler st now ⟨some k, some w⟩ = (st, VerifyResp.invalidKey))
    ∧ (∀ (st : ServerState) (now : Nat) (k w : String) (d : KeyDoc), k ≠ "" → w ≠ "" →
        st.keys.find? (fun d => d.key == k) = some d → d.hwid ≠ w →
        verifyHandler st now ⟨some k, some w⟩ = (st, VerifyResp.hwidMismatch))
    ∧ (∀ (st : ServerState) (now : Nat) (k w : String) (d : KeyDoc), k ≠ "" → w ≠ "" →
        st.keys.find? (fun d => d.key == k) = some d → d.hwid = w →
        d.expiresAt < now →
        verifyHandler st now ⟨some k, some w⟩ = (st, VerifyResp.expired))
    ∧ (∀ (st : ServerState) (now : Nat) (k w : String) (d : KeyDoc), k ≠ "" → w ≠ "" →
        st.keys.find? (fun d => d.key == k) = some d → d.hwid = w →
        ¬ d.expiresAt < now → d.used = true →
        verifyHandler st now ⟨some k, some w⟩ = (st, VerifyResp.alreadyUsed)) := by
  refine ⟨?_, ?_, ?_, ?_⟩
  · intro st now k w hk hw hfind
    simp [verifyHandler, verifyRead, verifyCommit,
      beq_eq_false_iff_ne.mpr hk, beq_eq_false_iff_ne.mpr hw, hfind]
  · intro st now k w d hk hw hfind hne
    simp [verifyHandler, verifyRead, verifyCommit,
      beq_eq_false_iff_ne.mpr hk, beq_eq_false_iff_ne.mpr hw, hfind,
      beq_eq_false_iff_ne.mpr hne]
  · intro st now k w d hk hw hfind hdw hlt
    simp [verifyHandler, verifyRead, verifyCommit,
      beq_eq_false_iff_ne.mpr hk, beq_eq_false_iff_ne.mpr hw, hfind,
      beq_iff_eq.mpr hdw, hlt]
  · intro st now k w d hk hw hfind hdw hnlt hused
    simp [verifyHandler, verifyRead, verifyCommit,
      beq_eq_false_iff_ne.mpr hk, beq_eq_false_iff_ne.mpr hw, hfind,
      beq_iff_eq.mpr hdw, hnlt, hused]

/-- C6 witness: the four rejection cases at concrete stores. -/
theorem C6_redemption_taxonomy_witness :
    verifyHandler stOneKey 5 ⟨some "X", some "H"⟩ = (stOneKey, VerifyResp.invalidKey)
    ∧ verifyHandler stOneKey 5 ⟨some "K", some "B"⟩ = (stOneKey, VerifyResp.hwidMismatch)
    ∧ verifyHandler stOneKey 2000 ⟨some "K", some "H"⟩ = (stOneKey, VerifyResp.expired)
    ∧ verifyHandler stUsedKey 500 ⟨some "K", some "H"⟩ = (stUsedKey, VerifyResp.alreadyUsed) :=
  ⟨C6_redemption_taxonomy.1 stOneKey 5 "X" "H" (by decide) (by decide) (by decide),
   C6_redemption_taxonomy.2.1 stOneKey 5 "K" "B" ⟨"K", "H", "S", 0, 1000, false, none⟩
     (by decide) (by decide) (by decide) (by decide),
   C6_redemption_taxonomy.2.2.1 stOneKey 2000 "K" "H" ⟨"K", "H", "S", 0, 1000, false, none⟩
     (by decide) (by decide) (by decide) (by decide) (by decide),
   C6_redemption_taxonomy.2.2.2 stUsedKey 500 "K" "H" ⟨"K", "H", "S", 0, 1000, true, some 2⟩
     (by decide) (by decide) (by decide) (by decide) (by decide) (by decide)⟩

/-- C7: issuance ignores the completed flag.  On any session already marked
completed whose checkpoints contain both required identifiers (as the
bare-string entries the issuance check can see), a further IssueCredential
call with the valid sessionId+hwid tag succeeds, appends a second key
document bound to the same session and hwid with a 24-hour expiry, and the
new key value differs from every key already on file (the generator never
repeats a draw). -/
theorem C7_double_issuance (st : ServerState) (now : Nat) (sid : String)
    (s : Session)
    (hsid : sid ≠ "")
    (hfind : st.sessions.find? (fun t => t.sessionId == sid) = some s)
    (_hdone : s.completed = true)
    (h1 : includesStr s.checkpoints "task1" = true)
    (h2 : includesStr s.checkpoints "task2" = true)
    (hfresh : ∀ d ∈ st.keys, d.key ∈ (List.range st.counter).map generateKey) :
    (getkeyHandler st now ⟨some sid, some (Payload.sh sid s.hwid)⟩).2
        = GetkeyResp.issued (generateKey st.counter) (now + KEY_EXPIRY_HOURS * 60 * 60 * 1000)
    ∧ (getkeyHandler st now ⟨some sid, some (Payload.sh sid s.hwid)⟩).1.keys
        = st.keys ++ [⟨generateKey st.counter, s.hwid, sid, now,
            now + KEY_EXPIRY_HOURS * 60 * 60 * 1000, false, none⟩]
    ∧ ∀ d ∈ st.keys, d.key ≠ generateKey st.counter := by
  have hs0 : (sid == "") = false := beq_eq_false_iff_ne.mpr hsid
  have hall : requiredCheckpoints.all (fun cp => includesStr s.checkpoints cp) = true := by
    simp [requiredCheckpoints, h1, h2]
  refine ⟨?_, ?_, ?_⟩
  · simp [getkeyHandler, hs0, hfind, hall]
  · simp [getkeyHandler, hs0, hfind, hall]
  · intro d hd hkey
    obtain ⟨m, hm, hgen⟩ := List.mem_map.mp (hfresh d hd)
    have hmc : m = st.counter := generateKey_injective m st.counter (hgen.trans hkey)
    have hlt : m < st.counter := List.mem_range.mp hm
    omega

/-- C7 witness: a second issuance on the completed stCompleted session mints
key draw 1, distinct from the key on file. -/
theorem C7_double_issuance_witness :
    (getkeyHandler stCompleted 200 ⟨some "S", some (Payload.sh "S" "H")⟩).2
        = GetkeyResp.issued (generateKey stCompleted.counter) (200 + KEY_EXPIRY_HOURS * 60 * 60 * 1000)
    ∧ (getkeyHandler stCompleted 200 ⟨some "S", some (Payload.sh "S" "H")⟩).1.keys
        = stCompleted.keys ++ [⟨generateKey stCompleted.counter, "H", "S", 200,
            200 + KEY_EXPIRY_HOURS * 60 * 60 * 1000, false, none⟩]
    ∧ ∀ d ∈ stCompleted.keys, d.key ≠ generateKey stCompleted.counter :=
  C7_double_issuance stCompleted 200 "S"
    ⟨"S", "H", 100, [CpEntry.str "task1", CpEntry.str "task2"], true, some "K"⟩
    (by decide) (by decide) (by decide) (by decide) (by decide) (by decide)

/-- C9 amended: the pending-verification lifecycle holds with one repair: at
every reachable state there is at most one pending entry per sessionId; a
matching ConfirmCheckpointCode deletes the session's pending entry when the
checkpoint is not yet recorded, but when it is already recorded the call
returns success with the state (pending entry included) unchanged; and the
sweep removes exactly the entries older than the 10-minute TTL, never the
younger ones. -/
theorem C9_pending_lifecycle :
    (∀ st : ServerState, Reach st → KeysNodup st.activeSessions)
    ∧ (∀ (st : ServerState) (now : Nat) (sid code : String) (s : Session) (vd : PendingEntry),
        sid ≠ "" → code ≠ "" →
        st.sessions.find? (fun t => t.sessionId == sid) = some s →
        mapGet st.activeSessions sid = some vd →
        strUpper vd.code = strUpper code →
        mapIdIncludes s.checkpoints vd.checkpoint = false →
        mapGet (vccHandler st now ⟨some sid, some code⟩).1.activeSessions sid = none)
    ∧ (∀ (st : ServerState) (now : Nat) (sid code : String) (s : Session) (vd : PendingEntry),
        sid ≠ "" → code ≠ "" →
        st.sessions.find? (fun t => t.sessionId == sid) = some s →
        mapGet st.activeSessions sid = some vd →
        strUpper vd.code = strUpper code →
        mapIdIncludes s.checkpoints vd.checkpoint = true →
        vccHandler st now ⟨some sid, some code⟩ = (st, VccResp.alreadyCompleted))
    ∧ (∀ (l : List (String × PendingEntry)) (now : Nat) (k : String) (e : PendingEntry),
        (k, e) ∈ sweepOld l now ↔ ((k, e) ∈ l ∧ ¬ 600000 < now - e.createdAt)) := by
  refine ⟨fun st h => reach_KeysNodup st h, ?_, ?_, ?_⟩
  · intro st now sid code s vd hsid hcode hfind hget hcm hnotdone
    have hs0 : (sid == "") = false := beq_eq_false_iff_ne.mpr hsid
    have hc0 : (code == "") = false := beq_eq_false_iff_ne.mpr hcode
    have hcmb : (strUpper vd.code == strUpper code) = true := beq_iff_eq.mpr hcm
    simp [vccHandler, hs0, hc0, hfind, hget, hcmb, hnotdone,
      mapGet_mapDelete_self]
  · intro st now sid code s vd hsid hcode hfind hget hcm hdone
    have hs0 : (sid == "") = false := beq_eq_false_iff_ne.mpr hsid
    have hc0 : (code == "") = false := beq_eq_false_iff_ne.mpr hcode
    have hcmb : (strUpper vd.code == strUpper code) = true := beq_iff_eq.mpr hcm
    simp [vccHandler, hs0, hc0, hfind, hget, hcmb, hdone]
  · intro l now k e
    simp [sweepOld, List.mem_filter]

/-- C9 witness: the invariant at the initial state; a matching confirmation
of the not-yet-recorded task1 deletes the pending entry; a matching
confirmation of the already-recorded task1 leaves the state unchanged; a
younger-than-TTL entry survives the sweep while its membership condition
holds. -/
theorem C9_pending_lifecycle_witness :
    KeysNodup initialState.activeSessions
    ∧ mapGet (vccHandler stGate1 300 ⟨some "S", some "CC"⟩).1.activeSessions "S" = none
    ∧ vccHandler stRegate 700 ⟨some "S", some "CCC"⟩ = (stRegate, VccResp.alreadyCompleted)
    ∧ (("S", (⟨"C", "task1", "H", 0⟩ : PendingEntry)) ∈
          sweepOld [("S", ⟨"C", "task1", "H", 0⟩)] 500
        ↔ (("S", (⟨"C", "task1", "H", 0⟩ : PendingEntry)) ∈
            [("S", (⟨"C", "task1", "H", 0⟩ : PendingEntry))]
          ∧ ¬ 600000 < 500 - (⟨"C", "task1", "H", 0⟩ : PendingEntry).createdAt)) :=
  ⟨C9_pending_lifecycle.1 initialState Reach.init,
   C9_pending_lifecycle.2.1 stGate1 300 "S" "CC"
     ⟨"S", "ip|ua", 100, [], false, none⟩ ⟨"CC", "task1", "ip|ua", 200⟩
     (by decide) (by decide) (by decide) (by decide) (by decide) (by decide),
   C9_pending_lifecycle.2.2.1 stRegate 700 "S" "CCC"
     ⟨"S", "ip|ua", 100, [CpEntry.obj "task1" 300 true], false, none⟩
     ⟨"CCC", "task1", "ip|ua", 600⟩
     (by decide) (by decide) (by decide) (by decide) (by decide) (by decide),
   C9_pending_lifecycle.2.2.2 [("S", ⟨"C", "task1", "H", 0⟩)] 500 "S"
     ⟨"C", "task1", "H", 0⟩⟩

/-- C10: the proof field of a direct confirmation request is parsed and never
read: for any state and any two values of the field, absent included, the
response and the resulting state are identical, and the missing-parameter
check does not require it. -/
theorem C10_proof_field_ignored (st : ServerState) (sid : Option String)
    (sig : Option Payload) (cid : Option String) (p1 p2 : Option String) :
    checkpointHandler st ⟨sid, sig, cid, p1⟩ = checkpointHandler st ⟨sid, sig, cid, p2⟩ :=
  rfl

end KeySys
